import Mathlib

/-!
Shallow embedding of the gulp-sass plugin (src/index.js): the pure
argument builder `createCompileArguments`, the error normalizer
`formatSassError`, and the streamx transform's per-file `transform`
and `destroy` handlers, together with models of the small external
helpers they call (node:path derived fields of a Vinyl file and the
replace-ext package).
-/

namespace GulpSass

/-- The plugin name constant `PLUGIN_NAME` from src/index.js. -/
def PLUGIN_NAME : String := "gulp-sass-embedded"

/-! ### Path helpers (model of node:path as used by Vinyl and replace-ext) -/

/-- Splits a character list on the slash separator (the components of a
POSIX path). -/
def splitOnSlash : List Char → List (List Char)
  | [] => [[]]
  | c :: rest =>
    if c = '/' then [] :: splitOnSlash rest
    else
      match splitOnSlash rest with
      | h :: t => (c :: h) :: t
      | [] => [[c]]

/-- Model of node:path `basename`: the part of the path after the final
slash (Vinyl exposes this as `file.basename`). -/
def baseNameOf (p : String) : String :=
  String.mk ((splitOnSlash p.toList).getLastD p.toList)

/-- Model of JavaScript `String.prototype.startsWith`. -/
def jsStartsWith (s pre : String) : Bool :=
  pre.toList.isPrefixOf s.toList

/-- Suffix of a character list starting at its last dot, if any. -/
def extAfterLastDot : List Char → Option (List Char)
  | [] => none
  | c :: rest =>
    match extAfterLastDot rest with
    | some e => some e
    | none => if c = '.' then some (c :: rest) else none

/-- Model of node:path `extname`: extension of the base name starting at
its last dot, empty when the only dot is the leading character (dotfiles
have no extension). Vinyl exposes this as `file.extname`. -/
def extnameOf (p : String) : String :=
  match (baseNameOf p).toList with
  | [] => ""
  | _ :: rest =>
    match extAfterLastDot rest with
    | some e => String.mk e
    | none => ""

/-- Model of node:path `dirname`: everything before the final slash,
`.` when there is no slash, `/` for a file at the root. Vinyl exposes
this as `file.dirname`. -/
def dirnameOf (p : String) : String :=
  match (splitOnSlash p.toList).dropLast with
  | [] => "."
  | [[]] => "/"
  | parts => String.mk (List.intercalate ['/'] parts)

/-- Model of node:path `join` for a directory and a file name. -/
def joinPath (dir name : String) : String :=
  if dir = "." then name
  else if dir = "/" then "/" ++ name
  else dir ++ "/" ++ name

/-- Model of the external replace-ext package used by src/index.js:
keeps an empty path unchanged, otherwise strips the base name's
extension and appends the new one. -/
def replaceExtension (p ext : String) : String :=
  if p = "" then p
  else
    let base := baseNameOf p
    let stem := String.mk (base.toList.take (base.length - (extnameOf p).length))
    joinPath (dirnameOf p) (stem ++ ext)

/-! ### createCompileArguments (src/index.js lines 23-67) -/

/-- An entry of the caller-supplied `loadPaths` option: JavaScript lets
non-string values appear there, and the source filters them out. -/
inductive PathEntry
  | str (s : String)
  | nonstring
deriving DecidableEq

/-- Model of a WHATWG file URL as produced by node:url `pathToFileURL`. -/
structure FileURL where
  path : String
deriving DecidableEq

/-- Model of node:url `pathToFileURL`. -/
def pathToFileURL (p : String) : FileURL := ⟨p⟩

/-- The fields of the `file` argument that `createCompileArguments`
destructures, each optional because the source supplies a default for
each (`path = ''`, `extname = ''`, `dirname = ''`, `contents = ''`,
`sourceMap = false`). Contents are modelled by their string view
(`contents.toString()` is the only use) and `sourceMap` by its
truthiness (`Boolean(sourceMap)` is the only use). -/
structure FileArgs where
  path : Option String := none
  extname : Option String := none
  dirname : Option String := none
  contents : Option String := none
  sourceMap : Option Bool := none
deriving DecidableEq

/-- The caller-supplied options object: `loadPaths` and `sync` are read
by the source; everything else passes through verbatim (modelled as an
opaque association list). -/
structure SassOptions where
  loadPaths : Option (List PathEntry) := none
  sync : Bool := false
  passthrough : List (String × String) := []
deriving DecidableEq

/-- The options record `createCompileArguments` returns: the caller's
options spread first, then `url`, `sourceMap`, `sourceMapIncludeSources`,
`syntax` and `loadPaths` overridden. -/
structure ResolvedOptions where
  passthrough : List (String × String)
  sync : Bool
  url : FileURL
  sourceMap : Bool
  sourceMapIncludeSources : Bool
  syntaxDialect : String
  loadPaths : List String
deriving DecidableEq

/-- The `switch (extname)` of src/index.js lines 34-47 selecting the
Sass syntax dialect. -/
def fileSyntaxFor (extname : String) : String :=
  match extname with
  | ".sass" => "indented"
  | ".css" => "css"
  | _ => "scss"

/-- The filter of src/index.js line 60-62: keep only entries that are
strings of positive length. -/
def keepPathStrings (l : List PathEntry) : List String :=
  l.filterMap fun e =>
    match e with
    | .str s => if 0 < s.length then some s else none
    | .nonstring => none

/-- Order-preserving first-seen de-duplication, the behaviour of
`[...new Set(list)]` in src/index.js lines 58-64. -/
def dedupFirst : List String → List String
  | [] => []
  | x :: xs => x :: (dedupFirst xs).filter (fun y => y ≠ x)

/-- JavaScript `a ?? b` on two optional strings. -/
def jsCoalesce (a b : Option String) : Option String :=
  match a with
  | some x => some x
  | none => b

/-- Embedding of `createCompileArguments` (src/index.js lines 23-67):
destructures the possibly-null file with defaults, selects the syntax
dialect from the extension, and rebuilds `loadPaths` as the first-seen
de-duplication of the file's directory followed by the caller's load
paths, keeping only non-empty strings. -/
def createCompileArguments (file : Option FileArgs) (options : SassOptions) :
    String × ResolvedOptions :=
  let f := file.getD {}
  let path := f.path.getD ""
  let extname := f.extname.getD ""
  let dirname := f.dirname.getD ""
  let contents := f.contents.getD ""
  let sourceMap := f.sourceMap.getD false
  let loadPaths := options.loadPaths.getD []
  let fileSyntax := fileSyntaxFor extname
  (contents,
    { passthrough := options.passthrough
      sync := options.sync
      url := pathToFileURL path
      sourceMap := sourceMap
      sourceMapIncludeSources := sourceMap
      syntaxDialect := fileSyntax
      loadPaths := dedupFirst (keepPathStrings (PathEntry.str dirname :: loadPaths)) })

/-! ### formatSassError (src/index.js lines 69-83) -/

/-- The `start` point of a Sass error span; `line` and `column` may be
absent (the source defaults them to 0 with `??`). -/
structure SpanStart where
  line : Option Nat := none
  column : Option Nat := none
deriving DecidableEq

/-- A Sass error span; its `start` point may be absent. -/
structure SassSpan where
  start : Option SpanStart := none
deriving DecidableEq

/-- A raw error value as seen by `formatSassError`: the fields it reads
(`span`, `sassMessage`, `message`) and the fields it writes (`line`,
`column`, `messageOriginal`, `messageFormatted`). -/
structure SassError where
  message : Option String := none
  sassMessage : Option String := none
  span : Option SassSpan := none
  line : Option Nat := none
  column : Option Nat := none
  messageOriginal : Option String := none
  messageFormatted : Option String := none
deriving DecidableEq

/-- Embedding of `formatSassError` (src/index.js lines 69-83): with no
error supplied it returns a fresh generic error; otherwise it writes
1-based `line`/`column` when a span start point exists, then sets
`messageOriginal` to `sassMessage ?? message` and `messageFormatted`
to `message`, mutating (here: updating) the same error. -/
def formatSassError (error : Option SassError) : SassError :=
  match error with
  | none => { message := some "No error message provided" }
  | some e =>
    let e1 :=
      match e.span with
      | some sp =>
        match sp.start with
        | some st =>
          { e with
              line := some (st.line.getD 0 + 1)
              column := some (st.column.getD 0 + 1) }
        | none => e
      | none => e
    { e1 with
        messageOriginal := jsCoalesce e1.sassMessage e1.message
        messageFormatted := e1.message }

/-! ### The transform handler (src/index.js lines 104-162) -/

/-- A Vinyl file's contents: null placeholder, in-memory buffer
(modelled by its string view), or a live byte stream. Vinyl's
`isNull()`, `isBuffer()` and `isStream()` probe exactly this tag. -/
inductive FileContents
  | nullContents
  | buffer (data : String)
  | stream
deriving DecidableEq

/-- Byte-length view used by `file.contents.length`. -/
def FileContents.len : FileContents → Nat
  | .buffer d => d.length
  | _ => 0

/-- Timestamp metadata carried by a Vinyl file's `stat`. -/
structure FileStat where
  atime : Nat := 0
  mtime : Nat := 0
  ctime : Nat := 0
deriving DecidableEq

/-- A sourcemap object as returned by the compiler and attached to the
file: only its `file` field is touched by the source
(`sourceMap.file ??= file.path`). -/
structure SourceMapData where
  file : Option String := none
  sources : List String := []
deriving DecidableEq

/-- The slice of a Vinyl file the transform reads and writes. -/
structure VinylFile where
  path : String
  contents : FileContents
  stat : Option FileStat := none
  sourceMap : Option SourceMapData := none
deriving DecidableEq

/-- Vinyl `file.isNull()`. -/
def VinylFile.isNull (f : VinylFile) : Bool :=
  match f.contents with
  | .nullContents => true
  | _ => false

/-- Vinyl `file.isStream()`. -/
def VinylFile.isStream (f : VinylFile) : Bool :=
  match f.contents with
  | .stream => true
  | _ => false

/-- Vinyl `file.isBuffer()`. -/
def VinylFile.isBuffer (f : VinylFile) : Bool :=
  match f.contents with
  | .buffer _ => true
  | _ => false

/-- Vinyl `file.basename`, derived from the path. -/
def VinylFile.basename (f : VinylFile) : String :=
  baseNameOf f.path

/-- The string view of the file's contents (`contents.toString()`). -/
def VinylFile.contentsString (f : VinylFile) : String :=
  match f.contents with
  | .buffer d => d
  | _ => ""

/-- The `FileArgs` view of a Vinyl file handed to
`createCompileArguments` by the transform handler. -/
def VinylFile.toFileArgs (f : VinylFile) : FileArgs :=
  { path := some f.path
    extname := some (extnameOf f.path)
    dirname := some (dirnameOf f.path)
    contents := some f.contentsString
    sourceMap := some f.sourceMap.isSome }

/-- A categorized plugin error (the plugin-error package): plugin name,
message, optional underlying cause and the `showProperties` flag. -/
structure PluginError where
  plugin : String
  message : String
  cause : Option SassError := none
  showProperties : Bool := true
deriving DecidableEq

/-- The result of the compiler's `compileString` /
`compileStringAsync`. -/
structure CompileOutput where
  css : String
  sourceMap : Option SourceMapData := none
deriving DecidableEq

/-- Model of the external vinyl-sourcemaps-apply collaborator: merges
the provenance map into the file. -/
def applySourceMap (f : VinylFile) (sm : SourceMapData) : VinylFile :=
  { f with sourceMap := some sm }

/-- How the transform handler settles one file: forward a file
downstream (`callback(null, file)`), drop it (`callback()`), or abort
the run with a plugin error (`callback(error)`). -/
inductive TransformOutcome
  | emit (f : VinylFile)
  | drop
  | fail (e : PluginError)
deriving DecidableEq

/-- Embedding of the per-file `transform` handler (src/index.js lines
104-162). `compile` abstracts `compiler.compileString` /
`compileStringAsync`; `now` is the current instant used to stamp the
stat times. The second component records whether the compiler was
invoked for this file. -/
def transformFile (compile : String → ResolvedOptions → Except SassError CompileOutput)
    (options : SassOptions) (now : Nat) (f : VinylFile) :
    TransformOutcome × Bool :=
  if f.isNull then
    (.emit f, false)
  else if f.isStream then
    (.fail { plugin := PLUGIN_NAME, message := "Streams are not supported!" }, false)
  else if jsStartsWith f.basename "_" then
    (.drop, false)
  else if f.contents.len = 0 then
    (.emit { f with path := replaceExtension f.path ".css" }, false)
  else
    let args := createCompileArguments (some f.toFileArgs) options
    match compile args.1 args.2 with
    | .ok out =>
      let f1 := { f with
        contents := FileContents.buffer out.css
        path := replaceExtension f.path ".css" }
      let f2 :=
        match f1.stat with
        | some _ => { f1 with stat := some { atime := now, mtime := now, ctime := now } }
        | none => f1
      let f3 :=
        match out.sourceMap with
        | some sm => applySourceMap f2 { sm with file := some (sm.file.getD f2.path) }
        | none => f2
      (.emit f3, true)
    | .error e =>
      let formatted := formatSassError (some e)
      (.fail { plugin := PLUGIN_NAME
               message := formatted.message.getD ""
               cause := some formatted
               showProperties := false }, true)

/-! ### The destroy handler (src/index.js lines 163-180) -/

/-- The compiler resource handle at teardown time: disposing it either
succeeds (`none`) or throws with a message (`some msg`). -/
structure CompilerHandle where
  disposeError : Option String
deriving DecidableEq

/-- Observable effects of the `destroy` handler: how many times
`dispose` ran, which error events were emitted on the stream, and how
the teardown callback was invoked. -/
structure DestroyResult where
  disposeCalls : Nat
  errorEvents : List PluginError
  callbackCalled : Bool
  callbackError : Option PluginError
deriving DecidableEq

/-- Embedding of the `destroy` handler (src/index.js lines 163-180):
dispose the compiler when present; on a dispose failure emit a
categorized error event instead of passing the error to the callback,
and invoke the callback without error in every case. -/
def destroy (compiler : Option CompilerHandle) : DestroyResult :=
  match compiler with
  | none =>
    { disposeCalls := 0, errorEvents := [], callbackCalled := true, callbackError := none }
  | some c =>
    match c.disposeError with
    | none =>
      { disposeCalls := 1, errorEvents := [], callbackCalled := true, callbackError := none }
    | some msg =>
      { disposeCalls := 1
        errorEvents := [{ plugin := PLUGIN_NAME, message := msg, showProperties := false }]
        callbackCalled := true
        callbackError := none }

/-! ### Helper lemmas -/

/-- A non-empty string has positive length. -/
lemma length_pos_of_ne_empty {s : String} (h : s ≠ "") : 0 < s.length := by
  cases s with
  | mk data =>
    cases data with
    | nil => exact absurd rfl h
    | cons c cs => simp [String.length]

/-- First-seen de-duplication produces a list without duplicates. -/
lemma dedupFirst_nodup (l : List String) : (dedupFirst l).Nodup := by
  induction l with
  | nil => simp [dedupFirst]
  | cons x xs ih =>
    simp only [dedupFirst, List.nodup_cons]
    refine ⟨?_, ih.filter _⟩
    intro hmem
    have := List.of_mem_filter hmem
    simp at this

/-- First-seen de-duplication is an order-preserving sublist of its
input. -/
lemma dedupFirst_sublist (l : List String) : (dedupFirst l).Sublist l := by
  induction l with
  | nil => simp [dedupFirst]
  | cons x xs ih =>
    simp only [dedupFirst]
    exact ((List.filter_sublist _).trans ih).cons₂ x

/-- The dialect switch written as a chain of extension comparisons. -/
lemma fileSyntaxFor_eq (e : String) :
    fileSyntaxFor e =
      if e = ".sass" then "indented"
      else if e = ".css" then "css"
      else "scss" := by
  unfold fileSyntaxFor
  split
  · simp
  · simp
  · rename_i h1 h2
    rw [if_neg h1, if_neg h2]

/-! ### Claim theorems -/

/-- C1 (counterexample): the claim quantifies over every asset with
zero-length contents, but a zero-length asset whose base name begins
with the partial marker is dropped by the earlier partial check, not
forwarded with its extension rewritten. -/
theorem c1_counterexample :
    transformFile (fun _ _ => Except.ok { css := "" }) {} 0
        { path := "d/_e.scss", contents := FileContents.buffer "" }
      ≠ (TransformOutcome.emit
            { path := replaceExtension "d/_e.scss" ".css"
              contents := FileContents.buffer "" }, false) := by
  decide

/-- C1 (amended): for every buffered asset with zero-length contents
whose base name does not begin with the partial marker, the transform
rewrites the path extension to `.css`, never invokes the compiler, and
forwards the asset otherwise unchanged. -/
theorem c1_empty_passthrough
    (compile : String → ResolvedOptions → Except SassError CompileOutput)
    (options : SassOptions) (now : Nat) (f : VinylFile)
    (hb : f.contents = FileContents.buffer "")
    (hp : jsStartsWith f.basename "_" = false) :
    transformFile compile options now f
      = (.emit { f with path := replaceExtension f.path ".css" }, false) := by
  simp [transformFile, VinylFile.isNull, VinylFile.isStream, hb, hp, FileContents.len]

/-- C1 (witness): a concrete empty non-partial asset is forwarded with
only its path extension rewritten and without a compiler call. -/
theorem c1_witness :
    transformFile (fun _ _ => Except.ok { css := "" }) {} 0
        { path := "a/empty.scss", contents := FileContents.buffer "" }
      = (TransformOutcome.emit
            { path := replaceExtension "a/empty.scss" ".css"
              contents := FileContents.buffer "" }, false) :=
  c1_empty_passthrough (fun _ _ => Except.ok { css := "" }) {} 0
    { path := "a/empty.scss", contents := FileContents.buffer "" } rfl (by decide)

/-- C2: every non-null buffered asset whose base name begins with the
partial marker is dropped silently — never emitted, never an error —
regardless of its contents, and the compiler is not invoked. -/
theorem c2_partials_dropped
    (compile : String → ResolvedOptions → Except SassError CompileOutput)
    (options : SassOptions) (now : Nat) (f : VinylFile)
    (hb : f.isBuffer = true)
    (hp : jsStartsWith f.basename "_" = true) :
    transformFile compile options now f = (.drop, false) := by
  obtain ⟨d, hd⟩ : ∃ d, f.contents = FileContents.buffer d := by
    cases hc : f.contents <;> simp [VinylFile.isBuffer, hc] at hb ⊢
  simp [transformFile, VinylFile.isNull, VinylFile.isStream, hd, hp]

/-- C2 (witness): a concrete partial file with non-empty contents is
dropped without a compiler call. -/
theorem c2_witness :
    transformFile (fun _ _ => Except.ok { css := "" }) {} 0
        { path := "a/_partial.scss", contents := FileContents.buffer "body {}" }
      = (TransformOutcome.drop, false) :=
  c2_partials_dropped (fun _ _ => Except.ok { css := "" }) {} 0
    { path := "a/_partial.scss", contents := FileContents.buffer "body {}" }
    rfl (by decide)

/-- C3: every asset whose contents are a live byte stream makes the
transform fail with the categorized "Streams are not supported!" plugin
error, and the compiler is never invoked for it. -/
theorem c3_stream_error
    (compile : String → ResolvedOptions → Except SassError CompileOutput)
    (options : SassOptions) (now : Nat) (f : VinylFile)
    (hs : f.isStream = true) :
    transformFile compile options now f
      = (.fail { plugin := PLUGIN_NAME, message := "Streams are not supported!" }, false) := by
  have hc : f.contents = FileContents.stream := by
    cases hc : f.contents <;> simp [VinylFile.isStream, hc] at hs ⊢
  simp [transformFile, VinylFile.isNull, VinylFile.isStream, hc]

/-- C3 (witness): a concrete streamed asset fails with the stream
error and no compiler call. -/
theorem c3_witness :
    transformFile (fun _ _ => Except.ok { css := "" }) {} 0
        { path := "a/s.scss", contents := FileContents.stream }
      = (TransformOutcome.fail
          { plugin := PLUGIN_NAME, message := "Streams are not supported!" }, false) :=
  c3_stream_error (fun _ _ => Except.ok { css := "" }) {} 0
    { path := "a/s.scss", contents := FileContents.stream } rfl

/-- C4: when a compiler resource exists at teardown it is disposed
exactly once; the teardown callback is always invoked and never with an
error, and a dispose failure is surfaced as a categorized error event
(with property dumping suppressed) distinct from the completion
signal. -/
theorem c4_destroy (c : CompilerHandle) :
    (destroy (some c)).disposeCalls = 1 ∧
    (destroy (some c)).callbackCalled = true ∧
    (destroy (some c)).callbackError = none ∧
    (c.disposeError = none → (destroy (some c)).errorEvents = []) ∧
    (∀ msg, c.disposeError = some msg →
      (destroy (some c)).errorEvents
        = [{ plugin := PLUGIN_NAME, message := msg, showProperties := false }]) := by
  cases hc : c.disposeError <;>
    simp [destroy, hc]

/-- C4 (witness): a handle whose disposal fails is still disposed once,
the callback completes without error, and the failure is emitted as a
categorized error event. -/
theorem c4_witness :
    (destroy (some ⟨some "Dispose error"⟩)).disposeCalls = 1 ∧
    (destroy (some ⟨some "Dispose error"⟩)).callbackCalled = true ∧
    (destroy (some ⟨some "Dispose error"⟩)).callbackError = none ∧
    (destroy (some ⟨some "Dispose error"⟩)).errorEvents
      = [{ plugin := PLUGIN_NAME, message := "Dispose error", showProperties := false }] := by
  have h := c4_destroy ⟨some "Dispose error"⟩
  exact ⟨h.1, h.2.1, h.2.2.1, h.2.2.2.2 "Dispose error" rfl⟩

/-- C5: an error with a span start point gets 1-based `line`/`column`
(absent start fields default to 0 before the increment, so a bare start
object yields line 1, column 1); an error lacking a span, or whose span
lacks a start object, has `line`/`column` left untouched — in
particular still unset when they were unset. -/
theorem c5_line_column (e : SassError) :
    (∀ sp st, e.span = some sp → sp.start = some st →
        (formatSassError (some e)).line = some (st.line.getD 0 + 1) ∧
        (formatSassError (some e)).column = some (st.column.getD 0 + 1)) ∧
    (e.span = none →
        (formatSassError (some e)).line = e.line ∧
        (formatSassError (some e)).column = e.column) ∧
    (∀ sp, e.span = some sp → sp.start = none →
        (formatSassError (some e)).line = e.line ∧
        (formatSassError (some e)).column = e.column) := by
  refine ⟨?_, ?_, ?_⟩
  · intro sp st hsp hst
    simp [formatSassError, hsp, hst]
  · intro hsp
    simp [formatSassError, hsp]
  · intro sp hsp hst
    simp [formatSassError, hsp, hst]

/-- C5 (witness): a span start of line 5, column 10 yields line 6,
column 11; a bare start object yields line 1, column 1; an error with
no span keeps `line` unset. -/
theorem c5_witness :
    (formatSassError (some { span := some { start := some { line := some 5, column := some 10 } } })).line
      = some 6 ∧
    (formatSassError (some { span := some { start := some { line := some 5, column := some 10 } } })).column
      = some 11 ∧
    (formatSassError (some { span := some { start := some ({} : SpanStart) } })).line = some 1 ∧
    (formatSassError (some { message := some "Generic error" })).line = none := by
  have h1 := (c5_line_column
      { span := some { start := some { line := some 5, column := some 10 } } }).1
      { start := some { line := some 5, column := some 10 } }
      { line := some 5, column := some 10 } rfl rfl
  have h2 := (c5_line_column { span := some { start := some ({} : SpanStart) } }).1
      { start := some ({} : SpanStart) } ({} : SpanStart) rfl rfl
  have h3 := (c5_line_column { message := some "Generic error" }).2.1 rfl
  exact ⟨h1.1, h1.2, h2.1, h3.1⟩

/-- C6 (counterexample): when no error value is supplied, the
synthesized generic error is returned before the message fields are
assigned, so `messageOriginal` and `messageFormatted` are not set even
though the claim says the returned error always has them set. -/
theorem c6_counterexample :
    (formatSassError none).message = some "No error message provided" ∧
    (formatSassError none).messageOriginal = none ∧
    (formatSassError none).messageFormatted = none := by
  decide

/-- C6 (amended): the normalizer never raises; with no error supplied
it returns a synthesized generic "no message" error (whose
`messageOriginal`/`messageFormatted` are left unset); for every
supplied error it sets `messageOriginal` to the domain-specific
`sassMessage` if present, else the generic `message`, and
`messageFormatted` to the generic `message`. -/
theorem c6_messages (err : SassError) :
    (formatSassError none).message = some "No error message provided" ∧
    (formatSassError (some err)).messageOriginal = jsCoalesce err.sassMessage err.message ∧
    (formatSassError (some err)).messageFormatted = err.message := by
  refine ⟨rfl, ?_, ?_⟩ <;>
  · cases hsp : err.span with
    | none => simp [formatSassError, hsp]
    | some sp =>
      cases hst : sp.start with
      | none => simp [formatSassError, hsp, hst]
      | some st => simp [formatSassError, hsp, hst]

/-- C7: the syntax dialect is selected purely from the file extension:
`.sass` maps to indented, `.css` to plain-CSS passthrough, and every
other extension — including the empty one used when the extension or
the whole file is missing — maps to the default scss syntax. -/
theorem c7_dialect (file : Option FileArgs) (options : SassOptions) :
    (createCompileArguments file options).2.syntaxDialect =
      (if (file.getD {}).extname.getD "" = ".sass" then "indented"
       else if (file.getD {}).extname.getD "" = ".css" then "css"
       else "scss") := by
  simp [createCompileArguments, fileSyntaxFor_eq]

/-- C8: the rebuilt search-path list is the order-preserving first-seen
de-duplication of the asset's directory followed by the caller's search
paths with non-string and empty entries removed; it has no duplicates
and preserves the order of that concatenation; and for a directory `D`
with caller paths `[D, X]` it equals `[D, X]`. -/
theorem c8_load_paths (f : FileArgs) (options : SassOptions) (D X : String)
    (hD : D ≠ "") (hX : X ≠ "") (hXD : X ≠ D) :
    ((createCompileArguments (some f) options).2.loadPaths
        = dedupFirst (keepPathStrings
            (PathEntry.str (f.dirname.getD "") :: options.loadPaths.getD []))) ∧
    ((createCompileArguments (some f) options).2.loadPaths).Nodup ∧
    ((createCompileArguments (some f) options).2.loadPaths).Sublist
        (keepPathStrings
          (PathEntry.str (f.dirname.getD "") :: options.loadPaths.getD [])) ∧
    ((createCompileArguments (some { dirname := some D })
        { loadPaths := some [PathEntry.str D, PathEntry.str X] }).2.loadPaths
        = [D, X]) := by
  refine ⟨rfl, dedupFirst_nodup _, dedupFirst_sublist _, ?_⟩
  have hDlen : 0 < D.length := length_pos_of_ne_empty hD
  have hXlen : 0 < X.length := length_pos_of_ne_empty hX
  simp [createCompileArguments, keepPathStrings, dedupFirst, hDlen, hXlen, hXD]

/-- C8 (witness): for a concrete directory and caller paths `[D, X]`
the resolved search-path list is `[D, X]` with no duplicate. -/
theorem c8_witness :
    (createCompileArguments (some { dirname := some "/a" })
        { loadPaths := some [PathEntry.str "/a", PathEntry.str "/b"] }).2.loadPaths
      = ["/a", "/b"] :=
  (c8_load_paths {} {} "/a" "/b" (by decide) (by decide) (by decide)).2.2.2

/-- C9: for a missing (null) asset the argument builder does not raise
(it is a total function of its inputs) and falls back to an empty
source text, and — when no caller options are given — an empty
search-path list. -/
theorem c9_null_asset (options : SassOptions) :
    (createCompileArguments none options).1 = "" ∧
    (createCompileArguments none {}).2.loadPaths = [] := by
  exact ⟨rfl, by decide⟩

/-- C10: the error normalizer is idempotent on every supplied error:
normalizing an already-normalized error changes none of its fields,
because the normalizer only reads `span`, `sassMessage` and `message`,
which it never writes. -/
theorem c10_idempotent (e : SassError) :
    formatSassError (some (formatSassError (some e))) = formatSassError (some e) := by
  cases e with
  | mk message sassMessage span line column mo mf =>
    cases span with
    | none => rfl
    | some sp =>
      cases sp with
      | mk start =>
        cases start with
        | none => rfl
        | some st => rfl

end GulpSass
